import Mathlib

/-!
Shallow embedding of the Lobby backend (src/backend/src/index.ts): a
Socket.IO + Express chat server with lobbies, in-memory membership maps,
a SQLite message log, and an optional OpenAI-backed "DM" assistant reply.

Randomness (Math.random), wall-clock time (Date.now), the SQLite write
outcome and the OpenAI call outcome are passed in as explicit parameters.
JavaScript Map objects (insertion-ordered, last-write-wins) are embedded
as association lists with JS Map semantics.
-/

namespace Lobby

/-- Lobby record held in the in-memory `lobbies` map: the code and the
optional OpenAI key (`openaiKey?: string`). -/
structure LobbyData where
  code : String
  openaiKey : Option String
deriving DecidableEq, Repr

/-- Row of the SQLite `messages` table: `id` is the AUTOINCREMENT primary
key assigned by the database, `createdAt` the Date.now() value passed by
the caller. -/
structure StoredMessage where
  id : Nat
  lobbyCode : String
  sender : String
  role : String
  content : String
  createdAt : Nat
deriving DecidableEq, Repr

/-- Message object emitted over the socket (the payload of a "message"
event); it has no lobbyCode field and its `id` is whatever the emitting
code put there. -/
structure WireMessage where
  id : Nat
  sender : String
  role : String
  content : String
  createdAt : Nat
deriving DecidableEq, Repr

/-- Event emitted to a lobby room: either a chat message broadcast or a
"users" roster broadcast. -/
inductive Event where
  | message (code : String) (m : WireMessage)
  | users (code : String) (names : List String)
deriving DecidableEq, Repr

/-- Acknowledgement payload sent to a socket callback: `\x7b\x7d` on
success or `\x7berror\x7d` on failure. -/
structure Ack where
  error : Option String
deriving DecidableEq, Repr

/-- Association-list lookup with JavaScript Map.get semantics. -/
def mapGet {α : Type} (m : List (String × α)) (k : String) : Option α :=
  (m.find? (fun p => p.1 == k)).map (fun p => p.2)

/-- JavaScript Map.has. -/
def mapHas {α : Type} (m : List (String × α)) (k : String) : Bool :=
  m.any (fun p => p.1 == k)

/-- JavaScript Map.set: overwrite in place when the key exists, else
append (insertion order preserved). -/
def mapSet {α : Type} (m : List (String × α)) (k : String) (v : α) :
    List (String × α) :=
  if mapHas m k then
    m.map (fun p => if p.1 == k then (k, v) else p)
  else
    m ++ [(k, v)]

/-- JavaScript Map.delete. -/
def mapDelete {α : Type} (m : List (String × α)) (k : String) :
    List (String × α) :=
  m.filter (fun p => !(p.1 == k))

/-- JavaScript Map.values() as a list, in insertion order. -/
def mapValues {α : Type} (m : List (String × α)) : List α :=
  m.map (fun p => p.2)

/-- Whole server state: the four in-memory maps (`lobbies`, `lobbyUsers`,
`socketToLobby`, `socketToNickname`) plus the durable SQLite table
(`messages` rows and the next AUTOINCREMENT id, starting at 1). -/
structure ServerState where
  lobbies : List (String × LobbyData)
  lobbyUsers : List (String × List (String × String))
  socketToLobby : List (String × String)
  socketToNickname : List (String × String)
  messages : List StoredMessage
  nextId : Nat
deriving DecidableEq, Repr

/-- State of a freshly started server: empty maps, empty table. -/
def initialState : ServerState :=
  { lobbies := [], lobbyUsers := [], socketToLobby := [],
    socketToNickname := [], messages := [], nextId := 1 }

/-- JavaScript `a || b` on `string | undefined` values: an absent or
empty (falsy) left operand yields the right operand. -/
def jsOrStr (a b : Option String) : Option String :=
  match a with
  | none => b
  | some s => if s.isEmpty then b else some s

/-- JavaScript falsiness of an optional string (`if (!apiKey)`):
undefined or the empty string. -/
def isFalsyKey : Option String → Bool
  | none => true
  | some s => s.isEmpty

/-- Alphabet of generateCode: 32 symbols, uppercase letters and digits
without the ambiguous glyphs I, O, 0, 1. -/
def alphabet : List Char := "ABCDEFGHJKLMNPQRSTUVWXYZ23456789".toList

theorem alphabet_length : alphabet.length = 32 := by decide

/-- generateCode: 6 independent draws from the 32-symbol alphabet; the
draw results (Math.floor(Math.random() * 32)) are the parameter. -/
def generateCode (draws : Fin 6 → Fin 32) : String :=
  String.mk ((List.finRange 6).map
    (fun i => alphabet.get (Fin.cast alphabet_length.symm (draws i))))

/-- INSERT into the messages table (insertMessage.run): appends a row
with the next AUTOINCREMENT id and returns that id (lastInsertRowid). -/
def appendStore (st : ServerState) (lobbyCode sender role content : String)
    (createdAt : Nat) : ServerState × Nat :=
  let rowId := st.nextId
  ({ st with
      messages := st.messages ++
        [{ id := rowId, lobbyCode := lobbyCode, sender := sender,
           role := role, content := content, createdAt := createdAt }],
      nextId := rowId + 1 },
   rowId)

/-- Comparison used by the selectMessages query (ORDER BY createdAt ASC). -/
def msgLE (a b : StoredMessage) : Prop := a.createdAt ≤ b.createdAt

instance : DecidableRel msgLE := fun a b => Nat.decLe a.createdAt b.createdAt

instance : IsTotal StoredMessage msgLE :=
  ⟨fun a b => Nat.le_total a.createdAt b.createdAt⟩

instance : IsTrans StoredMessage msgLE :=
  ⟨fun _ _ _ h h' => Nat.le_trans h h'⟩

/-- SELECT ... WHERE lobbyCode = ? ORDER BY createdAt ASC. -/
def selectMessages (rows : List StoredMessage) (code : String) :
    List StoredMessage :=
  List.insertionSort msgLE (rows.filter (fun m => m.lobbyCode == code))

/-- Result of an HTTP request handler. -/
inductive HttpResp where
  | badRequest (error : String)
  | notFound (error : String)
  | okCode (code : String)
  | okTrue
  | okMessages (messages : List StoredMessage)
deriving DecidableEq, Repr

/-- Validation of the optional openaiApiKey field of createLobbySchema:
absent, or 1-200 chars. -/
def validOptKey : Option String → Prop
  | none => True
  | some k => 1 ≤ k.length ∧ k.length ≤ 200

instance : (o : Option String) → Decidable (validOptKey o)
  | none => .isTrue trivial
  | some _ => inferInstanceAs (Decidable (_ ∧ _))

/-- POST /lobby handler: validate with createLobbySchema (nickname 1-32
chars, openaiApiKey optional 1-200 chars), generate a code, register the
lobby with the payload key or the OPENAI_API_KEY environment default, and
initialise an empty member map. -/
def handleCreateLobby (st : ServerState) (nickname : String)
    (openaiApiKey : Option String) (envKey : Option String)
    (draws : Fin 6 → Fin 32) : HttpResp × ServerState :=
  if 1 ≤ nickname.length ∧ nickname.length ≤ 32 ∧ validOptKey openaiApiKey then
    let code := generateCode draws
    let st' := { st with
      lobbies := mapSet st.lobbies code
        { code := code, openaiKey := jsOrStr openaiApiKey envKey },
      lobbyUsers := mapSet st.lobbyUsers code [] }
    (.okCode code, st')
  else
    (.badRequest "Invalid payload", st)

/-- POST /lobby/join handler: validate with joinLobbySchema (code 4-10
chars, nickname 1-32 chars), then check lobby existence; stateless. -/
def handleJoinPrecheck (st : ServerState) (code nickname : String) :
    HttpResp :=
  if 4 ≤ code.length ∧ code.length ≤ 10 ∧
      1 ≤ nickname.length ∧ nickname.length ≤ 32 then
    if mapHas st.lobbies code then .okTrue
    else .notFound "Lobby not found"
  else
    .badRequest "Invalid payload"

/-- GET /lobby/:code/messages handler: 404 when the lobby is unknown,
else the selectMessages query result. -/
def handleFetchHistory (st : ServerState) (code : String) : HttpResp :=
  if mapHas st.lobbies code then .okMessages (selectMessages st.messages code)
  else .notFound "Lobby not found"

/-- broadcastUsers: emit a "users" event carrying the values of the
lobby's member map (empty list when the lobby has no member map). -/
def broadcastUsers (st : ServerState) (code : String) : Event :=
  .users code (mapValues ((mapGet st.lobbyUsers code).getD []))

/-- Outcome of the chat.completions.create call: ok carries the first
choice's message content (none when absent), err is any thrown error. -/
inductive ProviderResult where
  | ok (text : Option String)
  | err
deriving DecidableEq, Repr

/-- sendAssistantMessage: look up the lobby key; when falsy, emit (but
never persist) the "No OpenAI API key configured" fallback; else call
the provider, and on success persist then emit the reply (empty or
missing text replaced by "Ready to keep chatting!"), on failure emit
(but never persist) the "DM is unavailable" fallback. The two separate
Date.now() calls of the non-persisting branches are t1 (id) and
t2 (createdAt). -/
def sendAssistantMessage (st : ServerState) (code : String)
    (provider : ProviderResult) (t1 t2 : Nat) :
    ServerState × List Event :=
  let apiKey := (mapGet st.lobbies code).bind (fun l => l.openaiKey)
  if isFalsyKey apiKey then
    (st, [.message code
      { id := t1, sender := "DM", role := "assistant",
        content := "No OpenAI API key configured for this lobby.",
        createdAt := t2 }])
  else
    match provider with
    | .ok text =>
      let assistantMessage :=
        match text with
        | none => "Ready to keep chatting!"
        | some s => if s.isEmpty then "Ready to keep chatting!" else s
      let createdAt := t1
      let st' := (appendStore st code "DM" "assistant" assistantMessage
        createdAt).1
      (st', [.message code
        { id := createdAt, sender := "DM", role := "assistant",
          content := assistantMessage, createdAt := createdAt }])
    | .err =>
      (st, [.message code
        { id := t1, sender := "DM", role := "assistant",
          content := "The DM is unavailable right now.",
          createdAt := t2 }])

/-- Behaviour of insertMessage.run for one call: the write succeeds, or
better-sqlite3 throws. -/
inductive StorageBehavior where
  | ok
  | fail
deriving DecidableEq, Repr

/-- Output of the socket "message" handler: resulting state, events
emitted to the room, the acknowledgement passed to the callback (none
when the callback was never invoked, as when the handler throws), and
whether the async sendAssistantMessage task was spawned. -/
structure MsgOut where
  state : ServerState
  events : List Event
  ack : Option Ack
  assistantSpawned : Bool
deriving DecidableEq, Repr

/-- Socket "message" handler: messageSchema requires code and nickname
to be strings (no other constraint) and content 1-400 chars; unknown
lobby is refused; then Date.now() is taken, the user row inserted, the
wire message (id = createdAt) broadcast, sendAssistantMessage spawned
without await, and the success acknowledgement sent. When the insert
throws, the handler aborts: nothing later in it runs. -/
def handleMessage (st : ServerState) (code nickname content : String)
    (storage : StorageBehavior) (now : Nat) : MsgOut :=
  if 1 ≤ content.length ∧ content.length ≤ 400 then
    if mapHas st.lobbies code then
      match storage with
      | .fail => { state := st, events := [], ack := none,
                   assistantSpawned := false }
      | .ok =>
        let createdAt := now
        let st' := (appendStore st code nickname "user" content createdAt).1
        { state := st',
          events := [.message code
            { id := createdAt, sender := nickname, role := "user",
              content := content, createdAt := createdAt }],
          ack := some { error := none },
          assistantSpawned := true }
    else
      { state := st, events := [], ack := some { error := some "Lobby not found" },
        assistantSpawned := false }
  else
    { state := st, events := [], ack := some { error := some "Invalid payload" },
      assistantSpawned := false }

/-- Socket "joinLobby" handler: joinLobbySchema validation, lobby
existence check, then join the room, record the socket's lobby and
nickname, add it to the member map, broadcast the roster, acknowledge. -/
def handleJoinLobby (st : ServerState) (sid code nickname : String) :
    ServerState × List Event × Option Ack :=
  if 4 ≤ code.length ∧ code.length ≤ 10 ∧
      1 ≤ nickname.length ∧ nickname.length ≤ 32 then
    if mapHas st.lobbies code then
      let users := (mapGet st.lobbyUsers code).getD []
      let users' := mapSet users sid nickname
      let st' := { st with
        socketToLobby := mapSet st.socketToLobby sid code,
        socketToNickname := mapSet st.socketToNickname sid nickname,
        lobbyUsers := mapSet st.lobbyUsers code users' }
      (st', [broadcastUsers st' code], some { error := none })
    else
      (st, [], some { error := some "Lobby not found" })
  else
    (st, [], some { error := some "Invalid payload" })

/-- Socket "disconnect" handler: return immediately when the socket has
no recorded lobby; otherwise clear socketToLobby, and when the lobby has
a member map, remove the socket from it and broadcast the roster; clear
socketToNickname. -/
def handleDisconnect (st : ServerState) (sid : String) :
    ServerState × List Event :=
  match mapGet st.socketToLobby sid with
  | none => (st, [])
  | some code =>
    let s2l := mapDelete st.socketToLobby sid
    match mapGet st.lobbyUsers code with
    | none =>
      ({ st with socketToLobby := s2l,
                 socketToNickname := mapDelete st.socketToNickname sid }, [])
    | some users =>
      let users' := mapDelete users sid
      let st' := { st with
        socketToLobby := s2l,
        lobbyUsers := mapSet st.lobbyUsers code users',
        socketToNickname := mapDelete st.socketToNickname sid }
      (st', [broadcastUsers st' code])

/-! Helper lemmas about the JS-Map embedding. -/

theorem find?_set_existing {α : Type} (k : String) (v : α) :
    ∀ m : List (String × α), mapHas m k = true →
      (m.map (fun p => if p.1 == k then (k, v) else p)).find?
        (fun p => p.1 == k) = some (k, v) := by
  intro m
  induction m with
  | nil => intro h; simp [mapHas] at h
  | cons p t ih =>
    intro h
    by_cases hp : p.1 == k
    · simp [List.find?, hp]
    · have ht : mapHas t k = true := by
        unfold mapHas at h
        rw [List.any_cons, Bool.or_eq_true] at h
        exact h.resolve_left hp
      have step :
          List.find? (fun q : String × α => q.1 == k)
              (p :: (t.map (fun q => if q.1 == k then (k, v) else q))) =
            List.find? (fun q : String × α => q.1 == k)
              (t.map (fun q => if q.1 == k then (k, v) else q)) :=
        List.find?_cons_of_neg _ hp
      rw [List.map_cons, if_neg hp, step]
      exact ih ht

theorem find?_append_single {α : Type} (k : String) (v : α) :
    ∀ m : List (String × α), mapHas m k = false →
      (m ++ [(k, v)]).find? (fun p => p.1 == k) = some (k, v) := by
  intro m
  induction m with
  | nil => intro _; simp [List.find?]
  | cons p t ih =>
    intro h
    unfold mapHas at h
    rw [List.any_cons, Bool.or_eq_false_iff] at h
    obtain ⟨hp, ht⟩ := h
    simp only [List.cons_append, List.find?, hp]
    exact ih ht

theorem mapGet_mapSet {α : Type} (m : List (String × α)) (k : String) (v : α) :
    mapGet (mapSet m k v) k = some v := by
  unfold mapSet
  by_cases h : mapHas m k
  · rw [if_pos h]
    unfold mapGet
    rw [find?_set_existing k v m h]
    rfl
  · rw [if_neg h]
    unfold mapGet
    rw [find?_append_single k v m (by simpa using h)]
    rfl

theorem mapGet_mapDelete {α : Type} (m : List (String × α)) (k : String) :
    mapGet (mapDelete m k) k = none := by
  unfold mapGet mapDelete
  induction m with
  | nil => rfl
  | cons p t ih =>
    rw [List.filter_cons]
    by_cases hp : p.1 == k
    · simp [hp]
    · simp [hp, List.find?]

theorem mapHas_mapDelete {α : Type} (m : List (String × α)) (k : String) :
    mapHas (mapDelete m k) k = false := by
  unfold mapHas mapDelete
  induction m with
  | nil => rfl
  | cons p t ih =>
    rw [List.filter_cons]
    by_cases hp : p.1 == k
    · simp [hp]
    · simp [hp, List.any_cons]

/-! Helper lemmas about generateCode. -/

theorem generateCode_length (draws : Fin 6 → Fin 32) :
    (generateCode draws).length = 6 := by
  simp [generateCode, String.length]

theorem generateCode_mem (draws : Fin 6 → Fin 32) :
    ∀ c ∈ (generateCode draws).toList, c ∈ alphabet := by
  intro c hc
  unfold generateCode at hc
  rw [String.toList] at hc
  simp only [String.mk, List.mem_map] at hc
  obtain ⟨i, _, rfl⟩ := hc
  exact List.get_mem _ _ _

/-! Concrete sample states for the witnesses. -/

/-- Server with one lobby ABCDEF that has no OpenAI key and no members. -/
def stNoKey : ServerState :=
  { initialState with
      lobbies := [("ABCDEF", { code := "ABCDEF", openaiKey := none })],
      lobbyUsers := [("ABCDEF", [])] }

/-- Server with one lobby ABCDEF that has an OpenAI key and no members. -/
def stWithKey : ServerState :=
  { initialState with
      lobbies := [("ABCDEF", { code := "ABCDEF", openaiKey := some "sk-test" })],
      lobbyUsers := [("ABCDEF", [])] }

/-- Server stWithKey after two messages were stored out of timestamp
order (rows appended at timestamps 200 then 100). -/
def stHist : ServerState :=
  { stWithKey with
      messages :=
        [{ id := 1, lobbyCode := "ABCDEF", sender := "Alice", role := "user",
           content := "hi", createdAt := 200 },
         { id := 2, lobbyCode := "ABCDEF", sender := "DM", role := "assistant",
           content := "yo", createdAt := 100 }],
      nextId := 3 }

/-- Server stNoKey with two joined members Alice (socket s1) and Bob
(socket s2). -/
def stJoined : ServerState :=
  { stNoKey with
      lobbyUsers := [("ABCDEF", [("s1", "Alice"), ("s2", "Bob")])],
      socketToLobby := [("s1", "ABCDEF"), ("s2", "ABCDEF")],
      socketToNickname := [("s1", "Alice"), ("s2", "Bob")] }

/-! Claim theorems. -/

/-- Claim C5: for every valid create-lobby input (nickname 1-32 chars,
optional credential 1-200 chars) and every outcome of the random draws,
handleCreateLobby succeeds with a code of length exactly 6 all of whose
characters come from the fixed 32-symbol alphabet. -/
theorem createLobby_code_valid (st : ServerState) (nickname : String)
    (key env : Option String) (draws : Fin 6 → Fin 32)
    (h : 1 ≤ nickname.length ∧ nickname.length ≤ 32 ∧ validOptKey key) :
    ∃ st', handleCreateLobby st nickname key env draws =
        (.okCode (generateCode draws), st') ∧
      (generateCode draws).length = 6 ∧
      ∀ c ∈ (generateCode draws).toList, c ∈ alphabet := by
  unfold handleCreateLobby
  rw [if_pos h]
  exact ⟨_, rfl, generateCode_length draws, generateCode_mem draws⟩

/-- Witness for C5 at a concrete input: nickname Alice, no key, all
draws 0. -/
theorem createLobby_code_valid_witness :
    ∃ st', handleCreateLobby initialState "Alice" none none (fun _ => 0) =
        (.okCode (generateCode (fun _ => 0)), st') ∧
      (generateCode (fun _ => 0)).length = 6 ∧
      ∀ c ∈ (generateCode (fun _ => 0)).toList, c ∈ alphabet :=
  createLobby_code_valid initialState "Alice" none none (fun _ => 0)
    (by refine ⟨by decide, by decide, trivial⟩)

/-- Claim C6: a send whose content has length 0 or over 400 is rejected
with the structured "Invalid payload" error in the sender's
acknowledgement; the state (message store included) is unchanged and
nothing is broadcast, whatever the storage outcome. -/
theorem message_invalid_content_rejected (st : ServerState)
    (code nickname content : String) (storage : StorageBehavior) (now : Nat)
    (h : content.length = 0 ∨ 400 < content.length) :
    handleMessage st code nickname content storage now =
      { state := st, events := [],
        ack := some { error := some "Invalid payload" },
        assistantSpawned := false } := by
  unfold handleMessage
  rw [if_neg (by omega)]

/-- Witness for C6 at a concrete input: empty content. -/
theorem message_invalid_content_rejected_witness :
    handleMessage stNoKey "ABCDEF" "Alice" "" StorageBehavior.ok 5 =
      { state := stNoKey, events := [],
        ack := some { error := some "Invalid payload" },
        assistantSpawned := false } :=
  message_invalid_content_rejected stNoKey "ABCDEF" "Alice" ""
    StorageBehavior.ok 5 (Or.inl rfl)

/-- Claim C7: when no lobby exists for a code, the request/response
pre-check never answers ok (it answers an error response), and the
live-connection joinLobby handler leaves the state unchanged, emits
nothing, and acknowledges with a structured error. -/
theorem join_unknown_code_errors (st : ServerState)
    (sid code nickname : String)
    (h : mapHas st.lobbies code = false) :
    handleJoinPrecheck st code nickname ≠ .okTrue ∧
    (∃ e, handleJoinPrecheck st code nickname = .badRequest e ∨
      handleJoinPrecheck st code nickname = .notFound e) ∧
    (∃ e, handleJoinLobby st sid code nickname =
      (st, [], some { error := some e })) := by
  by_cases hv : 4 ≤ code.length ∧ code.length ≤ 10 ∧
      1 ≤ nickname.length ∧ nickname.length ≤ 32
  · refine ⟨?_, ⟨"Lobby not found", Or.inr ?_⟩, ⟨"Lobby not found", ?_⟩⟩ <;>
      simp [handleJoinPrecheck, handleJoinLobby, hv, h]
  · refine ⟨?_, ⟨"Invalid payload", Or.inl ?_⟩, ⟨"Invalid payload", ?_⟩⟩ <;>
      simp [handleJoinPrecheck, handleJoinLobby, hv, h]

/-- Witness for C7 at a concrete input: the empty server and an unknown
code. -/
theorem join_unknown_code_errors_witness :
    handleJoinPrecheck initialState "ZZZZZZ" "Alice" ≠ .okTrue ∧
    (∃ e, handleJoinPrecheck initialState "ZZZZZZ" "Alice" = .badRequest e ∨
      handleJoinPrecheck initialState "ZZZZZZ" "Alice" = .notFound e) ∧
    (∃ e, handleJoinLobby initialState "s1" "ZZZZZZ" "Alice" =
      (initialState, [], some { error := some e })) :=
  join_unknown_code_errors initialState "s1" "ZZZZZZ" "Alice" (by decide)

/-- Claim C8: handleFetchHistory answers the not-found error when the
lobby does not exist, and otherwise returns exactly the messages stored
for that lobby (a permutation of the store filtered to the lobby, hence
empty when there are none) sorted in ascending creation-timestamp
order. -/
theorem fetchHistory_spec (st : ServerState) (code : String) :
    (mapHas st.lobbies code = false →
      handleFetchHistory st code = .notFound "Lobby not found") ∧
    (mapHas st.lobbies code = true →
      handleFetchHistory st code = .okMessages (selectMessages st.messages code) ∧
      (selectMessages st.messages code).Perm
        (st.messages.filter (fun m => m.lobbyCode == code)) ∧
      (selectMessages st.messages code).Sorted msgLE ∧
      (st.messages.filter (fun m => m.lobbyCode == code) = [] →
        selectMessages st.messages code = [])) := by
  constructor
  · intro h
    simp [handleFetchHistory, h]
  · intro h
    have hperm : (selectMessages st.messages code).Perm
        (st.messages.filter (fun m => m.lobbyCode == code)) :=
      List.perm_insertionSort msgLE _
    refine ⟨by simp [handleFetchHistory, h], hperm,
      List.sorted_insertionSort msgLE _, fun he => ?_⟩
    rw [he] at hperm
    exact List.Perm.eq_nil hperm

/-- Witness for C8 at a concrete input: stHist holds two ABCDEF rows
whose insertion order disagrees with timestamp order. -/
theorem fetchHistory_spec_witness :
    handleFetchHistory stHist "ABCDEF" =
      .okMessages (selectMessages stHist.messages "ABCDEF") ∧
    (selectMessages stHist.messages "ABCDEF").Perm
      (stHist.messages.filter (fun m => m.lobbyCode == "ABCDEF")) ∧
    (selectMessages stHist.messages "ABCDEF").Sorted msgLE ∧
    (stHist.messages.filter (fun m => m.lobbyCode == "ABCDEF") = [] →
      selectMessages stHist.messages "ABCDEF" = []) :=
  (fetchHistory_spec stHist "ABCDEF").2 (by decide)

/-- Claim C9: disconnecting a socket with no recorded lobby changes
nothing and broadcasts nothing; disconnecting a member of lobby L
removes it from L's member map (the removed socket id is gone) and emits
exactly one roster broadcast to L carrying the roster after removal. -/
theorem disconnect_spec (st : ServerState) (sid : String) :
    (mapGet st.socketToLobby sid = none → handleDisconnect st sid = (st, [])) ∧
    (∀ code users, mapGet st.socketToLobby sid = some code →
      mapGet st.lobbyUsers code = some users →
      handleDisconnect st sid =
        ({ st with
            socketToLobby := mapDelete st.socketToLobby sid,
            lobbyUsers := mapSet st.lobbyUsers code (mapDelete users sid),
            socketToNickname := mapDelete st.socketToNickname sid },
         [.users code (mapValues (mapDelete users sid))]) ∧
      mapHas (mapDelete users sid) sid = false) := by
  constructor
  · intro h
    unfold handleDisconnect
    rw [h]
  · intro code users h1 h2
    refine ⟨?_, mapHas_mapDelete users sid⟩
    unfold handleDisconnect
    rw [h1]
    simp only [h2, broadcastUsers, mapGet_mapSet, Option.getD_some]

/-- Witness for C9 at a concrete input: stJoined has members Alice (s1)
and Bob (s2); disconnecting s1 leaves Bob and broadcasts once. -/
theorem disconnect_spec_witness :
    handleDisconnect stJoined "s1" =
      ({ stJoined with
          socketToLobby := mapDelete stJoined.socketToLobby "s1",
          lobbyUsers := mapSet stJoined.lobbyUsers "ABCDEF"
            (mapDelete [("s1", "Alice"), ("s2", "Bob")] "s1"),
          socketToNickname := mapDelete stJoined.socketToNickname "s1" },
       [.users "ABCDEF"
          (mapValues (mapDelete [("s1", "Alice"), ("s2", "Bob")] "s1"))]) ∧
    mapHas (mapDelete [("s1", "Alice"), ("s2", "Bob")] "s1") "s1" = false :=
  (disconnect_spec stJoined "s1").2 "ABCDEF" [("s1", "Alice"), ("s2", "Bob")]
    (by decide) (by decide)

/-- Claim C10: the message handler takes the sender label verbatim from
the payload's nickname, with no length bound and no comparison against
the nickname recorded at join: for every nickname string whatsoever,
a send with valid content to an existing lobby stores and broadcasts a
user message whose sender is exactly that string, and is acknowledged
as a success. -/
theorem message_nickname_unchecked (st : ServerState)
    (code nickname content : String) (now : Nat)
    (hc : 1 ≤ content.length ∧ content.length ≤ 400)
    (hl : mapHas st.lobbies code = true) :
    handleMessage st code nickname content .ok now =
      { state := { st with
          messages := st.messages ++
            [{ id := st.nextId, lobbyCode := code, sender := nickname,
               role := "user", content := content, createdAt := now }],
          nextId := st.nextId + 1 },
        events := [.message code
          { id := now, sender := nickname, role := "user",
            content := content, createdAt := now }],
        ack := some { error := none },
        assistantSpawned := true } := by
  unfold handleMessage
  rw [if_pos hc, if_pos hl]
  rfl

/-- Witness for C10 at a concrete input: a 40-character nickname, never
registered via join, longer than the 32-character join bound. -/
theorem message_nickname_unchecked_witness :
    handleMessage stNoKey "ABCDEF"
        "0123456789012345678901234567890123456789" "hello" .ok 1000 =
      { state := { stNoKey with
          messages := stNoKey.messages ++
            [{ id := stNoKey.nextId, lobbyCode := "ABCDEF",
               sender := "0123456789012345678901234567890123456789",
               role := "user", content := "hello", createdAt := 1000 }],
          nextId := stNoKey.nextId + 1 },
        events := [.message "ABCDEF"
          { id := 1000, sender := "0123456789012345678901234567890123456789",
            role := "user", content := "hello", createdAt := 1000 }],
        ack := some { error := none },
        assistantSpawned := true } :=
  message_nickname_unchecked stNoKey "ABCDEF"
    "0123456789012345678901234567890123456789" "hello" 1000
    (by decide) (by decide)

/-- Claim C1, counterexample: in lobby ABCDEF with no key, the
assistant response broadcasts exactly one fallback message but appends
nothing to the message store, and a subsequent fetchHistory of the lobby
returns no messages — refuting that the fallback is persisted and shows
up in the history. -/
theorem assistant_nokey_persisted_cex :
    (sendAssistantMessage stNoKey "ABCDEF" ProviderResult.err 500 500).1.messages
      = [] ∧
    (sendAssistantMessage stNoKey "ABCDEF" ProviderResult.err 500 500).2 =
      [Event.message "ABCDEF"
        { id := 500, sender := "DM", role := "assistant",
          content := "No OpenAI API key configured for this lobby.",
          createdAt := 500 }] ∧
    handleFetchHistory
        (sendAssistantMessage stNoKey "ABCDEF" ProviderResult.err 500 500).1
        "ABCDEF" = .okMessages [] := by
  decide

/-- Claim C1 as amended: when the lobby's key is absent or falsy, the
assistant response broadcasts exactly one assistant-role fallback
message (text "No OpenAI API key configured for this lobby.") to the
lobby, leaves the server state — the message store included — unchanged,
and never consults the provider (the outcome parameter is irrelevant). -/
theorem assistant_nokey_amended (st : ServerState) (code : String)
    (p p' : ProviderResult) (t1 t2 : Nat)
    (h : isFalsyKey ((mapGet st.lobbies code).bind
      (fun l => l.openaiKey)) = true) :
    sendAssistantMessage st code p t1 t2 =
      (st, [.message code
        { id := t1, sender := "DM", role := "assistant",
          content := "No OpenAI API key configured for this lobby.",
          createdAt := t2 }]) ∧
    sendAssistantMessage st code p t1 t2 =
      sendAssistantMessage st code p' t1 t2 := by
  unfold sendAssistantMessage
  rw [if_pos h, if_pos h]
  exact ⟨rfl, rfl⟩

/-- Witness for the amended C1 at a concrete input: lobby ABCDEF of
stNoKey, two different provider outcomes. -/
theorem assistant_nokey_amended_witness :
    sendAssistantMessage stNoKey "ABCDEF" ProviderResult.err 700 701 =
      (stNoKey, [.message "ABCDEF"
        { id := 700, sender := "DM", role := "assistant",
          content := "No OpenAI API key configured for this lobby.",
          createdAt := 701 }]) ∧
    sendAssistantMessage stNoKey "ABCDEF" ProviderResult.err 700 701 =
      sendAssistantMessage stNoKey "ABCDEF" (ProviderResult.ok (some "hi"))
        700 701 :=
  assistant_nokey_amended stNoKey "ABCDEF" ProviderResult.err
    (ProviderResult.ok (some "hi")) 700 701 (by decide)

/-- Claim C2, counterexample: after one successful send at timestamp
1000 into the fresh lobby ABCDEF, the stored row and the row returned by
fetchHistory carry the AUTOINCREMENT id 1 while createdAt is 1000 — the
id of a fetched message is not the creation timestamp. -/
theorem message_id_timestamp_cex :
    handleFetchHistory
        (handleMessage stWithKey "ABCDEF" "Alice" "hello"
          StorageBehavior.ok 1000).state "ABCDEF" =
      .okMessages
        [{ id := 1, lobbyCode := "ABCDEF", sender := "Alice",
           role := "user", content := "hello", createdAt := 1000 }] ∧
    (1 : Nat) ≠ 1000 := by
  decide

/-- Claim C2 as amended: the wire message broadcast for a send carries
id = createdAt = the Date.now() value, but the persisted row receives
the table's AUTOINCREMENT id: the append returns that rowid, and the
rows handed back by the history query keep it, so a fetched message's id
is the insertion counter, not its createdAt. -/
theorem message_ids_amended (st : ServerState)
    (code nickname content : String) (now : Nat)
    (hc : 1 ≤ content.length ∧ content.length ≤ 400)
    (hl : mapHas st.lobbies code = true) :
    (handleMessage st code nickname content .ok now).events =
      [.message code
        { id := now, sender := nickname, role := "user",
          content := content, createdAt := now }] ∧
    (appendStore st code nickname "user" content now).2 = st.nextId ∧
    (handleMessage st code nickname content .ok now).state.messages =
      st.messages ++
        [{ id := st.nextId, lobbyCode := code, sender := nickname,
           role := "user", content := content, createdAt := now }] := by
  unfold handleMessage
  rw [if_pos hc, if_pos hl]
  exact ⟨rfl, rfl, rfl⟩

/-- Witness for the amended C2 at a concrete input: lobby ABCDEF of
stWithKey, send at timestamp 1000 stored with rowid 1. -/
theorem message_ids_amended_witness :
    (handleMessage stWithKey "ABCDEF" "Alice" "hello" .ok 1000).events =
      [.message "ABCDEF"
        { id := 1000, sender := "Alice", role := "user",
          content := "hello", createdAt := 1000 }] ∧
    (appendStore stWithKey "ABCDEF" "Alice" "user" "hello" 1000).2 =
      stWithKey.nextId ∧
    (handleMessage stWithKey "ABCDEF" "Alice" "hello" .ok 1000).state.messages =
      stWithKey.messages ++
        [{ id := stWithKey.nextId, lobbyCode := "ABCDEF", sender := "Alice",
           role := "user", content := "hello", createdAt := 1000 }] :=
  message_ids_amended stWithKey "ABCDEF" "Alice" "hello" 1000
    (by decide) (by decide)

/-- Claim C3, counterexample: a send of valid content to the existing
lobby ABCDEF whose durable append fails produces no events at all — the
in-memory broadcast does not proceed (and no acknowledgement reaches the
sender), refuting that a StorageError never blocks delivery. -/
theorem storage_failure_blocks_broadcast_cex :
    handleMessage stWithKey "ABCDEF" "Alice" "hello"
        StorageBehavior.fail 1000 =
      { state := stWithKey, events := [], ack := none,
        assistantSpawned := false } := by
  decide

/-- Claim C3 as amended: a StorageError during the durable append of a
user message aborts the handler: the message is not broadcast, the
assistant responder is not spawned, the state is unchanged, and nothing
— neither a success nor an error acknowledgement — is surfaced to the
emitting client. -/
theorem storage_failure_amended (st : ServerState)
    (code nickname content : String) (now : Nat)
    (hc : 1 ≤ content.length ∧ content.length ≤ 400)
    (hl : mapHas st.lobbies code = true) :
    handleMessage st code nickname content .fail now =
      { state := st, events := [], ack := none,
        assistantSpawned := false } := by
  unfold handleMessage
  rw [if_pos hc, if_pos hl]

/-- Witness for the amended C3 at a concrete input. -/
theorem storage_failure_amended_witness :
    handleMessage stWithKey "ABCDEF" "Bob" "hey" .fail 2000 =
      { state := stWithKey, events := [], ack := none,
        assistantSpawned := false } :=
  storage_failure_amended stWithKey "ABCDEF" "Bob" "hey" 2000
    (by decide) (by decide)

/-- Claim C4, counterexample: a provider failure in the keyed lobby
ABCDEF broadcasts exactly one assistant fallback message but appends
nothing to the message store — refuting that the fallback is persisted. -/
theorem assistant_failure_persisted_cex :
    (sendAssistantMessage stWithKey "ABCDEF" ProviderResult.err 500 500).1.messages
      = [] ∧
    (sendAssistantMessage stWithKey "ABCDEF" ProviderResult.err 500 500).2 =
      [Event.message "ABCDEF"
        { id := 500, sender := "DM", role := "assistant",
          content := "The DM is unavailable right now.",
          createdAt := 500 }] := by
  decide

/-- Claim C4 as amended: on any provider failure in a lobby with a
usable key, the assistant response returns normally (never throws),
broadcasts exactly one assistant-role message with the fixed text
"The DM is unavailable right now." and nothing else — in particular no
provider-level error detail reaches any client — and leaves the state,
the message store included, unchanged. -/
theorem assistant_failure_amended (st : ServerState) (code : String)
    (t1 t2 : Nat)
    (h : isFalsyKey ((mapGet st.lobbies code).bind
      (fun l => l.openaiKey)) = false) :
    sendAssistantMessage st code ProviderResult.err t1 t2 =
      (st, [.message code
        { id := t1, sender := "DM", role := "assistant",
          content := "The DM is unavailable right now.",
          createdAt := t2 }]) := by
  unfold sendAssistantMessage
  rw [if_neg (by simp [h])]

/-- Witness for the amended C4 at a concrete input. -/
theorem assistant_failure_amended_witness :
    sendAssistantMessage stWithKey "ABCDEF" ProviderResult.err 800 801 =
      (stWithKey, [.message "ABCDEF"
        { id := 800, sender := "DM", role := "assistant",
          content := "The DM is unavailable right now.",
          createdAt := 801 }]) :=
  assistant_failure_amended stWithKey "ABCDEF" 800 801 (by decide)

end Lobby
